import Mathlib

/-!
Verification of the stock-report backend (namu-1002/stock-backend).

Shallow embedding of the report pipeline:
  * `MetricsCalculator` (app/domain/metrics_calculator.py)
  * `DartFinancialLoader` (app/domain/dart_financial_loader.py)
  * the raw-report service (app/services/raw_report_service.py)
  * `ReportFormatter` (app/utils/report_formatter.py)
  * the report service (app/services/report_service.py)

Python `dict`/JSON payloads are modelled by an inductive `Json` type,
Python floats by the exact-rational type `PyFloat` (decimal values;
binary-representation rounding artifacts of IEEE floats are outside the
model), and fallible external calls (FinanceDataReader, the DART client)
by `Option`-valued parameters.  All definitions are fuel-free structural
recursions so that every concrete run evaluates inside the kernel.
-/

/-! ## Exact rationals standing in for Python floats -/

/-- Euclid's algorithm with explicit fuel (`fuel ≥ a` suffices), written
so the kernel can evaluate it. -/
def gcdFuel : Nat → Nat → Nat → Nat
  | 0, _, b => b
  | _ + 1, 0, b => b
  | fuel + 1, a + 1, b => gcdFuel fuel (b % (a + 1)) (a + 1)

/-- A Python float value, kept as an exact fraction.  Every value the
embedding constructs is normalized (positive denominator, lowest terms),
so structural equality is value equality. -/
structure PyFloat where
  num : Int
  den : Int
deriving DecidableEq

/-- Normalize: positive denominator, lowest terms. -/
def PyFloat.norm (x : PyFloat) : PyFloat :=
  let n := if x.den < 0 then -x.num else x.num
  let d := if x.den < 0 then -x.den else x.den
  let g : Int := Int.ofNat (gcdFuel (d.natAbs + 1) d.natAbs n.natAbs)
  if g = 0 then { num := 0, den := 1 } else { num := n / g, den := d / g }

instance (n : Nat) : OfNat PyFloat n := ⟨{ num := (n : Int), den := 1 }⟩
instance : IntCast PyFloat := ⟨fun n => { num := n, den := 1 }⟩
instance : NatCast PyFloat := ⟨fun n => { num := (n : Int), den := 1 }⟩
instance : Neg PyFloat := ⟨fun x => { num := -x.num, den := x.den }⟩
instance : Add PyFloat :=
  ⟨fun x y => PyFloat.norm { num := x.num * y.den + y.num * x.den, den := x.den * y.den }⟩
instance : Sub PyFloat :=
  ⟨fun x y => PyFloat.norm { num := x.num * y.den - y.num * x.den, den := x.den * y.den }⟩
instance : Mul PyFloat :=
  ⟨fun x y => PyFloat.norm { num := x.num * y.num, den := x.den * y.den }⟩
instance : Div PyFloat :=
  ⟨fun x y => PyFloat.norm { num := x.num * y.den, den := x.den * y.num }⟩
instance : Pow PyFloat Nat :=
  ⟨fun x k => PyFloat.norm { num := x.num ^ k, den := x.den ^ k }⟩
instance : LT PyFloat := ⟨fun x y => x.num * y.den < y.num * x.den⟩
instance : LE PyFloat := ⟨fun x y => x.num * y.den ≤ y.num * x.den⟩

instance (x y : PyFloat) : Decidable (x < y) :=
  inferInstanceAs (Decidable (x.num * y.den < y.num * x.den))

instance (x y : PyFloat) : Decidable (x ≤ y) :=
  inferInstanceAs (Decidable (x.num * y.den ≤ y.num * x.den))

/-- Mathematical floor of the value (denominators are positive in every
constructed value). -/
def PyFloat.floorI (x : PyFloat) : Int :=
  if x.num < 0 then -(Int.ofNat ((x.num.natAbs + x.den.natAbs - 1) / x.den.natAbs))
  else Int.ofNat (x.num.natAbs / x.den.natAbs)

/-- Python `int(x)` on a float: truncation toward zero. -/
def pyTrunc (x : PyFloat) : Int :=
  if x.num < 0 then -(Int.ofNat (x.num.natAbs / x.den.natAbs))
  else Int.ofNat (x.num.natAbs / x.den.natAbs)

/-- Round to the nearest integer, ties to even (the rounding used by
Python's `round` and `format` on the decimal value). -/
def roundHalfEven (q : PyFloat) : Int :=
  let f := q.floorI
  let r := q.num - f * q.den
  if 2 * r < q.den then f
  else if q.den < 2 * r then f + 1
  else if f % 2 = 0 then f else f + 1

/-- Python `round(x, 2)`. -/
def pyRound2 (q : PyFloat) : PyFloat := ((roundHalfEven (q * 100) : Int) : PyFloat) / 100

/-! ## Python-style string primitives (all list-based, kernel-evaluable) -/

/-- `n` is an initial segment of `hay`. -/
def beginsWith : List Char → List Char → Bool
  | [], _ => true
  | _ :: _, [] => false
  | a :: as, b :: bs => a == b && beginsWith as bs

/-- `n` occurs somewhere in the char list.  Models Python `n in s`. -/
def occursIn (n : List Char) : List Char → Bool
  | [] => n.isEmpty
  | c :: rest => beginsWith n (c :: rest) || occursIn n rest

/-- Python `n in s` (substring containment). -/
def hasSub (s n : String) : Bool := occursIn n.toList s.toList

/-- The characters before the first occurrence of `n` (the whole list
when `n` does not occur). -/
def beforeFirst (n : List Char) : List Char → List Char
  | [] => []
  | c :: rest => if beginsWith n (c :: rest) then [] else c :: beforeFirst n rest

/-- `s.split(sep)[0]` — the part of `s` before the first occurrence of
`sep`. -/
def firstPart (s sep : String) : String := String.mk (beforeFirst sep.toList s.toList)

/-- Python `s.strip()` (ASCII whitespace; this pipeline's strings carry
no exotic unicode whitespace). -/
def pyStrip (s : String) : String :=
  String.mk (((s.toList.dropWhile Char.isWhitespace).reverse.dropWhile
    Char.isWhitespace).reverse)

/-- Python `s.lower()` (ASCII; Korean text is unaffected, as in Python). -/
def pyLower (s : String) : String := String.mk (s.toList.map Char.toLower)

/-- `s[:n]` — first `n` characters (codepoints, as in Python). -/
def pyTake (s : String) (n : Nat) : String := String.mk (s.toList.take n)

/-- Value of a list of decimal digit characters. -/
def digitsToNat (ds : List Char) : Nat :=
  ds.foldl (fun a c => a * 10 + (c.toNat - '0'.toNat)) 0

/-- Python `int(s)` on a decimal literal: optional surrounding
whitespace, optional sign, then one or more ASCII digits.  (Underscore
digit grouping and non-ASCII digits accepted by CPython are not
modelled; no input in this pipeline contains them.) -/
def pyParseInt (s : String) : Option Int :=
  let signed : Int × List Char :=
    match (pyStrip s).toList with
    | '+' :: rest => (1, rest)
    | '-' :: rest => (-1, rest)
    | l => (1, l)
  if signed.2.isEmpty || !signed.2.all Char.isDigit then none
  else some (signed.1 * (digitsToNat signed.2 : Int))

/-- Insert a comma after every third character of a
least-significant-first digit list. -/
def groupRev : List Char → List Char
  | d1 :: d2 :: d3 :: d4 :: rest => d1 :: d2 :: d3 :: ',' :: groupRev (d4 :: rest)
  | xs => xs

/-- `f"{n:,}"` for a natural number: decimal digits with thousands
commas. -/
def groupNat (n : Nat) : String :=
  String.mk ((groupRev (Nat.toDigits 10 n).reverse).reverse)

/-- `f"{n:,}"` for an integer. -/
def groupInt (n : Int) : String :=
  (if n < 0 then "-" else "") ++ groupNat n.natAbs

/-- Pad a string to length `n` with leading zeros. -/
def padZeros (s : String) (n : Nat) : String :=
  if n ≤ s.length then s else String.mk (List.replicate (n - s.length) '0') ++ s

/-- `f"{q:.ndf}"`: fixed-point rendering with `nd` decimal places.
A negative value that rounds to zero keeps its minus sign, as in
Python. -/
def fmtFixed (nd : Nat) (q : PyFloat) : String :=
  let a := (roundHalfEven (q * (10 : PyFloat) ^ nd)).natAbs
  let sign := if q < 0 then "-" else ""
  sign ++ toString (a / 10 ^ nd) ++
    (if nd = 0 then "" else "." ++ padZeros (toString (a % 10 ^ nd)) nd)

/-- `f"{q:+.ndf}"`: as `fmtFixed` but non-negative values carry `+`. -/
def fmtFixedPlus (nd : Nat) (q : PyFloat) : String :=
  if q < 0 then fmtFixed nd q else "+" ++ fmtFixed nd q

/-- `f"{q:,.0f}"`: round to integer, thousands commas, sign kept. -/
def fmtGrouped0 (q : PyFloat) : String :=
  (if q < 0 then "-" else "") ++ groupNat (roundHalfEven q).natAbs

/-- Smallest `k ≥ 1` (capped at 17) such that `q * 10^k` is an
integer. -/
def decExp (q : PyFloat) : Nat :=
  match (List.range 17).find? (fun i => (q * (10 : PyFloat) ^ (i + 1)).den == 1) with
  | some i => i + 1
  | none => 17

/-- `str()` of a Python float holding the decimal value `q`: the
shortest round-trip decimal, which for the decimal fractions produced by
this pipeline is the value itself, with at least one fractional digit
(`str(700.0) = "700.0"`).  Exponent notation for magnitudes ≥ 1e16 is
not modelled (no value in the pipeline reaches it). -/
def pyFloatStr (q : PyFloat) : String :=
  let k := decExp q
  let a := (q * (10 : PyFloat) ^ k).floorI.natAbs
  (if q < 0 then "-" else "") ++ toString (a / 10 ^ k) ++ "." ++
    padZeros (toString (a % 10 ^ k)) k

/-- Maximal runs of digit-or-comma characters:
`re.findall(r"[\d,]+", s)`. -/
def numTokensAux : List Char → List Char → List String
  | [], acc => if acc.isEmpty then [] else [String.mk acc.reverse]
  | c :: rest, acc =>
    if c.isDigit || c == ',' then numTokensAux rest (c :: acc)
    else if acc.isEmpty then numTokensAux rest []
    else String.mk acc.reverse :: numTokensAux rest []

/-- All `[\d,]+` tokens of `s`, in order. -/
def numTokens (s : String) : List String := numTokensAux s.toList []

/-! ## JSON values (Python dict/list/str/number payloads) -/

/-- Python values crossing the service boundaries.  `int` and `float`
are kept distinct because `str()` renders them differently. -/
inductive Json where
  | null
  | bool (b : Bool)
  | int (n : Int)
  | float (q : PyFloat)
  | str (s : String)
  | arr (xs : List Json)
  | obj (fields : List (String × Json))

/-- First binding of `key` in an association list (Python dict keys are
unique in every payload this pipeline builds). -/
def lookupField : List (String × Json) → String → Option Json
  | [], _ => none
  | (k, v) :: rest, key => if k == key then some v else lookupField rest key

/-- `d[key]` lookup; `none` when the key is missing or the value is not
a dict.  (The Python code only ever calls `.get` on dicts.) -/
def Json.get? : Json → String → Option Json
  | .obj fs, key => lookupField fs key
  | _, _ => none

/-- `d.get(key, default)`. -/
def Json.getD (j : Json) (key : String) (d : Json) : Json := (j.get? key).getD d

/-- Python truthiness of a value. -/
def jsonTruthy : Json → Bool
  | .null => false
  | .bool b => b
  | .int n => n != 0
  | .float q => q != (0 : PyFloat)
  | .str s => s != ""
  | .arr xs => !xs.isEmpty
  | .obj fs => !fs.isEmpty

/-- Python `str()` of a scalar value (`str(None) = "None"` etc.).
Container reprs never reach `str()` in this pipeline. -/
def Json.pyStr : Json → String
  | .null => "None"
  | .bool true => "True"
  | .bool false => "False"
  | .int n => toString n
  | .float q => pyFloatStr q
  | .str s => s
  | .arr _ => ""
  | .obj _ => ""

/-- Numeric reading used by `isinstance(v, (int, float))` guards; a
Python `bool` is an `int` (`True == 1`). -/
def jsonToNum : Json → Option PyFloat
  | .int n => some ((n : Int) : PyFloat)
  | .float q => some q
  | .bool b => some (if b then 1 else 0)
  | _ => none

/-! ## MetricsCalculator (app/domain/metrics_calculator.py) -/

/-- One row of the DART financial-statement DataFrame: the account
label and the float-parse of its `thstrm_amount` column (`none` when
`float(...)` raises). -/
structure LineItem where
  account_nm : String
  thstrm_amount : Option PyFloat
deriving DecidableEq

namespace MetricsCalculator

def NET_INCOME_KEYS : List String :=
  [ "지배기업의 소유주에게 귀속되는 당기순이익"
  , "지배기업의 소유주에게 귀속되는 당기순이익(손실)"
  , "지배기업 소유지분"
  , "당기순이익(손실)"
  , "당기순이익" ]

def EQUITY_KEYS : List String :=
  [ "지배기업의 소유주에게 귀속되는 자본"
  , "지배기업 소유지분"
  , "자본총계" ]

def EPS_KEYS : List String :=
  [ "기본주당순이익"
  , "기본주당이익" ]

/-- `df['account_nm'].str.contains(key)` uses `key` as a regular
expression.  Every key in this module is a literal except for `(`/`)`,
which regex treats as grouping, so the pattern matches exactly when the
key with its parentheses removed occurs in the label. -/
def reMatches (pattern label : String) : Bool :=
  hasSub label (String.mk (pattern.toList.filter (fun c => !(c == '(' || c == ')'))))

/-- `MetricsCalculator._extract_value_by_keys`: for each key in order,
take the first row whose label matches; return its amount if it parses,
otherwise fall through to the next key; `0` when the keys are
exhausted. -/
def _extract_value_by_keys (df : List LineItem) : List String → PyFloat
  | [] => 0
  | key :: rest =>
    match (df.filter (fun li => reMatches key li.account_nm)).head? with
    | none => _extract_value_by_keys df rest
    | some li =>
      match li.thstrm_amount with
      | some v => v
      | none => _extract_value_by_keys df rest

/-- The metrics dict built by `calculate_from_dataframe`: `per`, `roe`
are floats, `pbr` a float or `None`, `eps`, `bps` ints. -/
structure CalcMetrics where
  per : PyFloat
  pbr : Option PyFloat
  roe : PyFloat
  eps : Int
  bps : Int
deriving DecidableEq

/-- `MetricsCalculator.calculate_from_dataframe`. -/
def calculate_from_dataframe (df : List LineItem) (current_price : PyFloat) :
    Option CalcMetrics :=
  let net_income := _extract_value_by_keys df NET_INCOME_KEYS
  let equity := _extract_value_by_keys df EQUITY_KEYS
  let eps := _extract_value_by_keys df EPS_KEYS
  if eps = 0 ∨ net_income = 0 ∨ equity = 0 then none
  else
    let shares := net_income / eps
    let bps := if shares > 0 then equity / shares else 0
    some
      { per := pyRound2 (current_price / eps)
      , pbr := if bps > 0 then some (pyRound2 (current_price / bps)) else none
      , roe := pyRound2 (net_income / equity * 100)
      , eps := pyTrunc eps
      , bps := pyTrunc bps }

end MetricsCalculator

/-! ## DartFinancialLoader (app/domain/dart_financial_loader.py) -/

namespace DartFinancialLoader

def key_accounts : List String :=
  [ "매출액"
  , "영업이익(손실)"
  , "당기순이익(손실)"
  , "지배기업의 소유주에게 귀속되는 당기순이익(손실)"
  , "자산총계"
  , "부채총계"
  , "자본총계"
  , "지배기업의 소유주에게 귀속되는 자본"
  , "영업활동 현금흐름"
  , "투자활동 현금흐름"
  , "재무활동 현금흐름"
  , "기본주당순이익(손실)" ]

/-- `DartFinancialLoader._dataframe_to_text`: header, one line per key
account found by exact label equality, then the EPS line found by
substring match. -/
def _dataframe_to_text (df : List LineItem) (ticker : String) : String :=
  let header := ["# " ++ ticker ++ " 재무제표 (DART API)", ""]
  let mainLines := key_accounts.filterMap (fun account =>
    match (df.filter (fun li => li.account_nm == account)).head? with
    | none => none
    | some li =>
      match li.thstrm_amount with
      | some amt => some ("- " ++ account ++ ": " ++ fmtGrouped0 amt)
      | none => none)
  let epsLines :=
    match (df.filter (fun li => hasSub li.account_nm "기본주당순이익")).head? with
    | none => []
    | some li =>
      match li.thstrm_amount with
      | some e => ["- 주당순이익(EPS): " ++ fmtGrouped0 e ++ "원"]
      | none => []
  String.intercalate "\n" (header ++ mainLines ++ epsLines)

/-- `DartFinancialLoader.load_financials`, with the DART client calls
as parameters: `get_corp_code` is the resolved corporate code (`none`
when the lookup fails, returns a falsy value, or raises) and
`get_financials y` the statement rows for fiscal year `y` (`none` when
the call raises or returns `None`).  Years `current_year`,
`current_year - 1`, `current_year - 2` are tried in order and the first
non-empty result is kept; any failure yields `none` (the `(None, None)`
return). -/
def load_financials (get_corp_code : Option String)
    (get_financials : Nat → Option (List LineItem))
    (current_year : Nat) (ticker : String) :
    Option (String × List LineItem) :=
  match get_corp_code with
  | none => none
  | some _ =>
    let found := [current_year, current_year - 1, current_year - 2].findSome?
      (fun y =>
        match get_financials y with
        | some df => if df.isEmpty then none else some df
        | none => none)
    match found with
    | none => none
    | some df => some (_dataframe_to_text df ticker, df)

end DartFinancialLoader

/-! ## raw_report_service (app/services/raw_report_service.py) -/

/-- The five-key metrics dict handled by `load_stock_metrics` /
`_enhance_metrics_with_dart_if_needed`.  A field is `none` exactly when
the Python dict holds `None` for that key. -/
structure StockMetrics where
  per : Option Json
  pbr : Option Json
  roe : Option Json
  eps : Option Json
  bps : Option Json

/-- The all-`None` metrics dict returned by `load_stock_metrics` when
FDR supplies nothing. -/
def emptyMetrics : StockMetrics :=
  { per := none, pbr := none, roe := none, eps := none, bps := none }

/-- `any(v is not None for v in values)` over the five metric fields. -/
def hasAnyValue (m : StockMetrics) : Bool :=
  m.per.isSome || m.pbr.isSome || m.roe.isSome || m.eps.isSome || m.bps.isSome

/-- The overwrite loop of `_enhance_metrics_with_dart_if_needed`:
`metrics[key] = calculated[key]` for each non-`None` calculated value
(`pbr` is the only key the calculator can leave as `None`). -/
def applyCalculated (m : StockMetrics) (c : MetricsCalculator.CalcMetrics) :
    StockMetrics :=
  { per := some (Json.float c.per)
  , pbr := match c.pbr with
           | some v => some (Json.float v)
           | none => m.pbr
  , roe := some (Json.float c.roe)
  , eps := some (Json.int c.eps)
  , bps := some (Json.int c.bps) }

/-- Python truthiness of the `current_price` argument (`None` and `0`
are falsy). -/
def priceTruthy : Option PyFloat → Bool
  | none => false
  | some p => p != (0 : PyFloat)

/-- `_enhance_metrics_with_dart_if_needed`.  `dartReady` models
`DART_LOADER and METRICS_CALCULATOR` (the process-wide DART
capability); `load_result` is the outcome of
`DART_LOADER.load_financials` (`none` when it raised or returned
`(None, None)`). -/
def _enhance_metrics_with_dart_if_needed (dartReady : Bool)
    (current_price : Option PyFloat)
    (load_result : Option (String × List LineItem))
    (metrics : StockMetrics) : StockMetrics × Option String :=
  if !(dartReady && priceTruthy current_price) then (metrics, none)
  else if hasAnyValue metrics then (metrics, none)
  else
    match load_result with
    | none => (metrics, none)
    | some (financial_text, financial_df) =>
      if financial_df.isEmpty then (metrics, none)
      else
        match MetricsCalculator.calculate_from_dataframe financial_df
            ((current_price).getD 0) with
        | none => (metrics, some financial_text)
        | some calculated =>
          (applyCalculated metrics calculated, some financial_text)

/-- The hardcoded name→code table. -/
def NAME_TO_CODE : List (String × String) :=
  [("삼성전자", "005930"), ("카카오", "035720"), ("LG에너지솔루션", "373220")]

/-- `_normalize_ticker`, with the KRX full-listing search as a
parameter (`fdr_lookup = none` when FDR is unavailable, the name is not
listed, or the query raises). -/
def _normalize_ticker (fdr_lookup : Option String) (ticker : String) : String :=
  if ticker == "" then ticker
  else
    let t := pyStrip ticker
    match NAME_TO_CODE.lookup t with
    | some code => code
    | none =>
      if t.toList.all Char.isDigit && t.length == 6 then t
      else
        match fdr_lookup with
        | some code => code
        | none => t

/-- The snapshot dict produced by `load_stock_snapshot` (all key/value
pairs it constructs; `current_price`, `high_52w`, `low_52w` are
`int(...)` coerced). -/
structure Snapshot where
  ticker : String
  name : String
  current_price : Int
  market_cap : Option Int
  market_cap_rank : Option Int
  ret_1m : Option PyFloat
  ret_3m : Option PyFloat
  ret_1y : Option PyFloat
  high_52w : Int
  low_52w : Int
  from_high : Option PyFloat

/-- `_fmt_pct` (module-level helper of the raw service). -/
def _fmt_pct : Option PyFloat → String
  | some v => fmtFixedPlus 2 v ++ "%"
  | none => "N/A"

/-- `_fmt_won` (module-level helper of the raw service). -/
def _fmt_won : Option PyFloat → String
  | some v => fmtGrouped0 v ++ "원"
  | none => "N/A"

/-- The external world consumed by one `generate_raw_report` call:
results of the FDR snapshot/metrics queries, the KRX name search, the
DART capability flag and filing-load outcome, and the wall-clock
timestamp. -/
structure ExtWorld where
  snapshot : Option Snapshot
  prim_metrics : StockMetrics
  fdr_lookup : Option String
  dartReady : Bool
  load_result : Option (String × List LineItem)
  generated_at : String

/-- Json rendering of an optional float (`None` → JSON null). -/
def jsonOfOptNum : Option PyFloat → Json
  | some q => Json.float q
  | none => Json.null

/-- Json rendering of an optional int. -/
def jsonOfOptInt : Option Int → Json
  | some n => Json.int n
  | none => Json.null

/-- `{v if v is not None else 'N/A'}` interpolation over a metrics
field. -/
def metricOrNA : Option Json → String
  | some j => j.pyStr
  | none => "N/A"

/-- The `report_data` dict literal at the end of `generate_raw_report`
(field values already computed). -/
def mkReportData (tickerCode name generated_at : String)
    (snap : Snapshot) (metrics : StockMetrics)
    (financial_text : Option String) : Json :=
  let raw_base : List (String × Json) :=
    [ ("basic", Json.obj
        [ ("ticker", Json.str tickerCode)
        , ("name", Json.str name)
        , ("current_price", Json.int snap.current_price)
        , ("market_cap", jsonOfOptInt snap.market_cap)
        , ("market_cap_rank", jsonOfOptInt snap.market_cap_rank) ])
    , ("price_trend", Json.obj
        [ ("1m", jsonOfOptNum snap.ret_1m)
        , ("3m", jsonOfOptNum snap.ret_3m)
        , ("1y", jsonOfOptNum snap.ret_1y)
        , ("52w_high", Json.int snap.high_52w)
        , ("52w_low", Json.int snap.low_52w)
        , ("from_high", jsonOfOptNum snap.from_high) ])
    , ("metrics", Json.obj
        [ ("per", (metrics.per).getD Json.null)
        , ("pbr", (metrics.pbr).getD Json.null)
        , ("roe", (metrics.roe).getD Json.null)
        , ("eps", (metrics.eps).getD Json.null)
        , ("bps", (metrics.bps).getD Json.null) ])
    , ("technical", Json.obj
        [ ("rsi", Json.null)
        , ("rsi_signal", Json.str "N/A") ]) ]
  let raw_data := Json.obj
    (raw_base ++
      match financial_text with
      | some ft => if ft != "" then [("financial_text", Json.str ft)] else []
      | none => [])
  let summary_text :=
    name ++ "의 현재 주가는 " ++ _fmt_won (some (snap.current_price : PyFloat)) ++
    "입니다. 최근 1년 수익률은 " ++ _fmt_pct snap.ret_1y ++ " 수준입니다."
  let price_analysis_text :=
    "최근 1개월 수익률은 " ++ _fmt_pct snap.ret_1m ++ ", 3개월 수익률은 " ++
    _fmt_pct snap.ret_3m ++ ", 1년 수익률은 " ++ _fmt_pct snap.ret_1y ++
    "입니다. 52주 고점은 " ++ _fmt_won (some (snap.high_52w : PyFloat)) ++
    ", 52주 저점은 " ++ _fmt_won (some (snap.low_52w : PyFloat)) ++
    "이며, 현재가는 52주 고점 대비 " ++ _fmt_pct snap.from_high ++
    " 위치에 있습니다."
  let financial_analysis_text :=
    "재무제표(매출, 영업이익, 순이익 등)에 대한 상세 분석은 " ++
    "향후 DART 재무제표 데이터를 연동해 확장할 수 있습니다."
  let valuation_text :=
    "PER·PBR·ROE와 같은 밸류에이션 지표를 기반으로 " ++
    "현재 주가의 상대적인 수준을 평가할 수 있습니다. " ++
    "현재 PER은 " ++ metricOrNA metrics.per ++ ", PBR은 " ++
    metricOrNA metrics.pbr ++ ", ROE는 " ++ metricOrNA metrics.roe ++
    " 입니다."
  let investment_opinion_text :=
    "본 리포트는 참고용 정보이며, 개별 투자자의 위험 성향과 투자 기간을 " ++
    "함께 고려해 최종 판단을 내리는 것이 좋습니다. " ++
    "구체적인 매수·매도 의견과 목표 주가는 별도로 제시하지 않습니다."
  Json.obj
    [ ("ticker", Json.str tickerCode)
    , ("name", Json.str name)
    , ("generated_at", Json.str generated_at)
    , ("report", Json.obj
        [ ("title", Json.str (name ++ " 투자 리포트"))
        , ("full_text", Json.str "")
        , ("sections", Json.obj
            [ ("summary", Json.str summary_text)
            , ("price_analysis", Json.str price_analysis_text)
            , ("financial_analysis", Json.str financial_analysis_text)
            , ("valuation", Json.str valuation_text)
            , ("investment_opinion", Json.str investment_opinion_text) ])
        -- `bool(metrics)`: the metrics dict always has its five keys
        , ("has_financials", Json.bool true) ])
    , ("raw_data", raw_data) ]

/-- `generate_raw_report`.  The snapshot/metrics/DART outcomes are
drawn from `ext`; the enhance step never raises in the model (it is a
total function), matching the `try/except` that would otherwise keep
the un-enhanced metrics. -/
def generate_raw_report (ticker : String) (ext : ExtWorld) : Json :=
  let t := pyStrip ticker
  if t == "" then Json.obj []
  else
    match ext.snapshot with
    | none => Json.obj []
    | some snap =>
      let enhanced := _enhance_metrics_with_dart_if_needed ext.dartReady
        (some (snap.current_price : PyFloat)) ext.load_result ext.prim_metrics
      let tickerCode :=
        if snap.ticker != "" then snap.ticker
        else _normalize_ticker ext.fdr_lookup t
      mkReportData tickerCode snap.name ext.generated_at snap enhanced.1 enhanced.2

/-! ## ReportFormatter (app/utils/report_formatter.py) -/

namespace ReportFormatter

/-- `ReportFormatter._one_line_summary` (default `max_len = 80` is
passed explicitly by the embedding's callers). -/
def _one_line_summary (text : String) (max_len : Nat) : String :=
  if text == "" then ""
  else
    let t :=
      if hasSub text ". " then firstPart text ". "
      else if hasSub text "。" then firstPart text "。"
      else if hasSub text "\n" then firstPart text "\n"
      else text
    pyTake t max_len ++ (if max_len < t.length then "..." else "")

/-- `ReportFormatter._extract_opinion_and_target`. -/
def _extract_opinion_and_target (text : String) :
    Option String × Option String :=
  if text == "" then (none, none)
  else
    let lower := pyLower text
    let opinion : Option String :=
      if hasSub text "매수" || hasSub lower "buy" then some "매수(BUY)"
      else if hasSub text "보유" || hasSub lower "hold" then some "보유(HOLD)"
      else if hasSub text "매도" || hasSub lower "sell" then some "매도(SELL)"
      else none
    let target : Option String :=
      match (numTokens text).head? with
      | none => none
      | some tok =>
        -- num = numbers[0].replace(",", ""): digits only; int() fails iff empty
        let num := tok.toList.filter (fun c => c != ',')
        if num.isEmpty then none
        else some (groupInt (digitsToNat num : Int) ++ "원")
    (opinion, target)

/-- `target_price_str.replace(",", "").replace("원", "")`. -/
def stripPriceStr (ts : String) : String :=
  String.mk (ts.toList.filter (fun c => !(c == ',' || c == '원')))

/-- `ReportFormatter._calc_upside`.  `current_price` is the
`basic.current_price` value (an `int` or absent in every payload the
pipeline builds). -/
def _calc_upside (current_price : Option Int)
    (target_price_str : Option String) : String :=
  match current_price, target_price_str with
  | some cp, some ts =>
    if cp == 0 || ts == "" then "N/A"
    else
      match pyParseInt (stripPriceStr ts) with
      | none => "N/A"
      | some target_num =>
        if cp ≤ 0 then "N/A"
        else
          let diff : PyFloat :=
            (((target_num : Int) : PyFloat) - ((cp : Int) : PyFloat)) /
              ((cp : Int) : PyFloat) * 100
          (if (0 : PyFloat) ≤ diff then "+" else "") ++ fmtFixed 1 diff ++ "%"
  | _, _ => "N/A"

/-- The `fmt_pct` closures of the card builders:
`f"{v:+.2f}%" if isinstance(v, (int, float)) else "N/A"`. -/
def fmt_pct (v : Option Json) : String :=
  match v with
  | some j =>
    match jsonToNum j with
    | some q => fmtFixedPlus 2 q ++ "%"
    | none => "N/A"
  | none => "N/A"

/-- The `fmt_won` closure of the summary card. -/
def fmt_won (v : Option Json) : String :=
  match v with
  | some j =>
    match jsonToNum j with
    | some q =>
      if (10 : PyFloat) ^ 12 ≤ q then fmtFixed 1 (q / (10 : PyFloat) ^ 12) ++ "조원"
      else if (10 : PyFloat) ^ 8 ≤ q then fmtFixed 0 (q / (10 : PyFloat) ^ 8) ++ "억원"
      else groupInt (pyTrunc q) ++ "원"
    | none => "N/A"
  | none => "N/A"

/-- `sections.get(key, "") or default`: the section string when present
and non-empty, the default otherwise (missing keys and the falsy `""`
both fall back; sections are always strings in this pipeline). -/
def sectionTextOr (sections : Json) (key defaultText : String) : String :=
  match sections.get? key with
  | some (.str s) => if s == "" then defaultText else s
  | _ => defaultText

/-- The dict literal of one itemList entry. -/
def item (title description : String) : Json :=
  Json.obj [("title", Json.str title), ("description", Json.str description)]

/-- The card dict shared by the five builders. -/
def card (imgTitle imgDesc one_line : String) (itemList : List Json) : Json :=
  Json.obj
    [ ("imageTitle", Json.obj
        [("title", Json.str imgTitle), ("description", Json.str imgDesc)])
    , ("title", Json.str "")
    , ("description", Json.str ("LLM 한 문장 요약: " ++ one_line))
    , ("itemList", Json.arr itemList) ]

/-- `ReportFormatter._build_summary_card`. -/
def _build_summary_card (report_data : Json) : Json :=
  let sections := (report_data.getD "report" (Json.obj [])).getD "sections" (Json.obj [])
  let raw := report_data.getD "raw_data" (Json.obj [])
  let price_trend := raw.getD "price_trend" (Json.obj [])
  let basic := raw.getD "basic" (Json.obj [])
  let summary_text := sectionTextOr sections "summary" "요약 정보가 없습니다."
  let one_line := _one_line_summary summary_text 80
  let one_year := price_trend.get? "1y"
  let mcap_rank := basic.get? "market_cap_rank"
  let mcap := basic.get? "market_cap"
  card "투자 요약" "해당 종목에 대한 핵심 요약입니다." one_line
    [ item "요약 1" ("최근 1년 수익률: " ++ fmt_pct one_year)
    , item "요약 2" ("시가총액: " ++ fmt_won mcap)
    , item "요약 3"
        (match mcap_rank with
         | some r => if jsonTruthy r then "시총 순위: " ++ r.pyStr ++ "위"
                     else "시총 순위: N/A"
         | none => "시총 순위: N/A")
    , item "요약 4" "상세 내용은 아래 카드에서 확인하세요." ]

/-- `ReportFormatter._build_price_card`. -/
def _build_price_card (report_data : Json) : Json :=
  let sections := (report_data.getD "report" (Json.obj [])).getD "sections" (Json.obj [])
  let raw := report_data.getD "raw_data" (Json.obj [])
  let price_trend := raw.getD "price_trend" (Json.obj [])
  let technical := raw.getD "technical" (Json.obj [])
  let desc_src := sectionTextOr sections "price_analysis" "주가 동향 분석 정보가 없습니다."
  let one_line := _one_line_summary desc_src 80
  card "주가 동향 분석" "최근 주가 흐름과 기술적 지표를 분석합니다." one_line
    [ item "1개월 수익률" (fmt_pct (price_trend.get? "1m"))
    , item "3개월 수익률" (fmt_pct (price_trend.get? "3m"))
    , item "1년 수익률" (fmt_pct (price_trend.get? "1y"))
    , item "52주 고점 대비" (fmt_pct (price_trend.get? "from_high"))
    , item "RSI" ((technical.getD "rsi" (Json.str "N/A")).pyStr ++ " (" ++
        (technical.getD "rsi_signal" (Json.str "N/A")).pyStr ++ ")") ]

/-- `ReportFormatter._build_financial_card`. -/
def _build_financial_card (report_data : Json) : Json :=
  let sections := (report_data.getD "report" (Json.obj [])).getD "sections" (Json.obj [])
  let desc_src := sectionTextOr sections "financial_analysis" "재무제표 요약 정보가 없습니다."
  let one_line := _one_line_summary desc_src 80
  card "재무제표" "기업 실적 기반 재무 흐름을 요약합니다." one_line
    [ item "매출" "텍스트 요약 기반으로 매출 흐름 설명"
    , item "영업이익" "텍스트 요약 기반으로 수익성 설명"
    , item "순이익" "당기순이익 및 추세 요약"
    , item "현금흐름" "영업/투자/재무 현금흐름 요약"
    , item "재무 안정성" "부채비율·유동비율 등 안정성 평가" ]

/-- `fmt` of the valuation card: `"N/A" if v is None else str(v)`
(`.get` of a missing key also yields `None`). -/
def fmtNA : Option Json → String
  | some Json.null => "N/A"
  | some j => j.pyStr
  | none => "N/A"

/-- `ReportFormatter._build_valuation_card`. -/
def _build_valuation_card (report_data : Json) : Json :=
  let raw := report_data.getD "raw_data" (Json.obj [])
  let metrics := raw.getD "metrics" (Json.obj [])
  let per := fmtNA (metrics.get? "per")
  let pbr := fmtNA (metrics.get? "pbr")
  let roe := fmtNA (metrics.get? "roe")
  let eps := fmtNA (metrics.get? "eps")
  let bps := fmtNA (metrics.get? "bps")
  let desc := "PER·PBR·ROE 기준으로 현재 주가의 적정성을 평가합니다. 상세 수치는 아래 항목을 참고하세요."
  card "밸류에이션" "PER·PBR·ROE로 주가 적정성을 판단합니다." desc
    [ item "PER" (per ++ "배")
    , item "PBR" (pbr ++ "배")
    , item "ROE" (roe ++ "%")
    , item "EPS/BPS" ("EPS " ++ eps ++ " / BPS " ++ bps)
    , item "평가 요약" "적정·저평가·고평가 여부는 리포트 본문 참조" ]

/-- `basic.get("current_price")` as the int `_calc_upside` receives
(`None`/missing/non-numeric → absent). -/
def jsonToIntOpt : Option Json → Option Int
  | some (Json.int n) => some n
  | _ => none

/-- `ReportFormatter._build_opinion_card`. -/
def _build_opinion_card (report_data : Json) : Json :=
  let sections := (report_data.getD "report" (Json.obj [])).getD "sections" (Json.obj [])
  let opinion_text :=
    match sections.get? "investment_opinion" with
    | some (.str s) => s
    | _ => ""
  let extracted := _extract_opinion_and_target opinion_text
  let raw := report_data.getD "raw_data" (Json.obj [])
  let basic := raw.getD "basic" (Json.obj [])
  let current_price := jsonToIntOpt (basic.get? "current_price")
  let upside_str := _calc_upside current_price extracted.2
  let desc0 := _one_line_summary opinion_text 80
  let desc := if desc0 == "" then "투자의견 정보가 없습니다." else desc0
  card "투자의견" "최종 투자 결론과 리스크를 제공합니다." desc
    [ item "종합 의견" ((extracted.1).getD "N/A")
    , item "목표 주가" ((extracted.2).getD "N/A")
    , item "Upside" upside_str
    , item "투자 리스크" "리포트 본문에서 제시한 주요 리스크를 참고하세요."
    , item "모니터링 포인트" "업황·실적·신사업 진행 상황을 지속적으로 체크하세요." ]

/-- `ReportFormatter._build_common_quick_replies`. -/
def _build_common_quick_replies : Json :=
  Json.arr
    [ Json.obj [("label", Json.str "뉴스/커뮤니티 보기"), ("action", Json.str "block"), ("blockId", Json.str "S06")]
    , Json.obj [("label", Json.str "다른 종목 리포트"), ("action", Json.str "block"), ("blockId", Json.str "S02")]
    , Json.obj [("label", Json.str "관심종목 추가"), ("action", Json.str "block"), ("blockId", Json.str "S10")]
    , Json.obj [("label", Json.str "도움말"), ("action", Json.str "block"), ("blockId", Json.str "HELP")] ]

/-- `ReportFormatter.build_success_response`: the five cards, in order,
wrapped as `itemCard` outputs, plus the shared quick replies. -/
def build_success_response (report_data : Json) : Json :=
  let item_cards :=
    [ _build_summary_card report_data
    , _build_price_card report_data
    , _build_financial_card report_data
    , _build_valuation_card report_data
    , _build_opinion_card report_data ]
  Json.obj
    [ ("version", Json.str "2.0")
    , ("template", Json.obj
        [ ("outputs", Json.arr (item_cards.map
            (fun c => Json.obj [("itemCard", c)])))
        , ("quickReplies", _build_common_quick_replies) ]) ]

/-- `ReportFormatter.build_no_data_response`. -/
def build_no_data_response (ticker : String) : Json :=
  let text := "앗, 아직 \x27" ++ ticker ++
    "\x27에 대한 리포트 데이터가 없어요 🥲 다른 종목 리포트를 보시겠어요?"
  Json.obj
    [ ("version", Json.str "2.0")
    , ("template", Json.obj
        [ ("outputs", Json.arr [Json.obj [("simpleText", Json.obj [("text", Json.str text)])]])
        , ("quickReplies", Json.arr
            [ Json.obj [("label", Json.str "다른 종목 리포트"), ("action", Json.str "block"), ("blockId", Json.str "S02")]
            , Json.obj [("label", Json.str "도움말"), ("action", Json.str "block"), ("blockId", Json.str "HELP")] ]) ]) ]

/-- `ReportFormatter.build_error_response`. -/
def build_error_response : Json :=
  let text := "지금 리포트를 불러오는 중에 문제가 발생했어요 😢\n잠시 후 다시 시도하시거나, 다른 종목을 조회해볼까요?"
  Json.obj
    [ ("version", Json.str "2.0")
    , ("template", Json.obj
        [ ("outputs", Json.arr [Json.obj [("simpleText", Json.obj [("text", Json.str text)])]])
        , ("quickReplies", Json.arr
            [ Json.obj [("label", Json.str "다시 시도"), ("action", Json.str "block"), ("blockId", Json.str "S02")]
            , Json.obj [("label", Json.str "다른 종목 리포트"), ("action", Json.str "block"), ("blockId", Json.str "S02")]
            , Json.obj [("label", Json.str "도움말"), ("action", Json.str "block"), ("blockId", Json.str "HELP")] ]) ]) ]

end ReportFormatter

/-! ## report_service (app/services/report_service.py) -/

/-- `_simple_text_skill`: the guaranteed-valid simpleText skill
payload. -/
def _simple_text_skill (message : String) : Json :=
  let text0 := pyStrip message
  let text1 :=
    if text0 == "" then "리포트 생성 중 알 수 없는 오류가 발생했습니다." else text0
  let text := if 980 < text1.length then pyTake text1 979 ++ "…" else text1
  Json.obj
    [ ("version", Json.str "2.0")
    , ("template", Json.obj
        [ ("outputs", Json.arr
            [Json.obj [("simpleText", Json.obj [("text", Json.str text)])]]) ]) ]

/-- `isinstance(resp, dict) and "version" in resp and "template" in
resp`. -/
def isKakaoDict (j : Json) : Bool :=
  match j with
  | .obj _ => (j.get? "version").isSome && (j.get? "template").isSome
  | _ => false

/-- `_ensure_kakao_format` (the `context` argument only feeds `print`). -/
def _ensure_kakao_format (resp : Json) : Json :=
  if isKakaoDict resp then resp
  else
    match resp with
    | .str s => _simple_text_skill s
    | _ => _simple_text_skill "리포트 생성 중 오류가 발생했습니다.\n잠시 후 다시 시도해 주세요."

/-- Outcome of the `generate_raw_report(norm_ticker)` call as seen by
`generate_report`: either an exception propagated out of it or its
return value. -/
inductive RawOutcome where
  | raises (msg : String)
  | produced (raw_report : Json)

/-- The summary lookup of the `except AttributeError` branch:
`raw_report.get("report", {}).get("sections", {}).get("summary", "")`
inside `try/except Exception` (any lookup failure yields `""`, and the
`if not summary` guard treats every falsy result like `""`).  `none`
marks the one case the branch would crash on — a truthy non-string
summary handed to `_simple_text_skill` — which `generate_raw_report`
never produces. -/
def getSummaryField (raw : Json) : Option String :=
  match ((raw.getD "report" (Json.obj [])).getD "sections" (Json.obj [])).get? "summary" with
  | some (.str t) => some t
  | some v => if jsonTruthy v then none else some ""
  | none => some ""

/-- `generate_report`.  `ReportFormatter.build_from_raw_report` is not
defined anywhere in `report_formatter.py`, so on a non-empty,
non-kakao-shaped raw report the call raises `AttributeError` and the
simpleText fallback of its handler always runs; `.error` marks the only
uncovered crash (see `getSummaryField`). -/
def generate_report (ticker : String) (outcome : RawOutcome) :
    Except String Json :=
  let norm := pyStrip ticker
  if norm == "" then
    Except.ok (_ensure_kakao_format (ReportFormatter.build_no_data_response "(미입력)"))
  else
    match outcome with
    | .raises _ =>
      Except.ok (_ensure_kakao_format ReportFormatter.build_error_response)
    | .produced raw =>
      if isKakaoDict raw then Except.ok (_ensure_kakao_format raw)
      else if !jsonTruthy raw then
        Except.ok (_ensure_kakao_format (ReportFormatter.build_no_data_response norm))
      else
        match getSummaryField raw with
        | none => Except.error "AttributeError in _simple_text_skill"
        | some s0 =>
          let summary :=
            if s0 == "" then norm ++ "에 대한 리포트를 찾을 수 없습니다." else s0
          Except.ok (_ensure_kakao_format (_simple_text_skill summary))

/-! ## Spec-modelled reference definitions (for refinement comparisons) -/

/-- Modelled from the spec claim C5: the extractor "returns the value of
the first line item (in collection order) matched by the first synonym
(in list order) such that the line item's label contains that synonym as
a case-sensitive substring … and returns the 0 sentinel when no synonym
matches or when the first matched amount cannot be parsed as a number". -/
def claimed_extract_value (df : List LineItem) (keys : List String) : PyFloat :=
  match keys.findSome? (fun k =>
      ((df.filter (fun li => hasSub li.account_nm k)).head?).map
        (fun li => li.thstrm_amount)) with
  | some (some v) => v
  | some none => 0
  | none => 0

/-- Character index of the first occurrence of `pat` in `s`. -/
def subIdx? (s pat : String) : Option Nat :=
  if hasSub s pat then some (firstPart s pat).length else none

/-- Modelled from the spec claim C8: truncate at the first sentence
terminator — the earliest-positioned occurrence of `". "`, `"。"` or a
newline — or at the 80-character budget, whichever comes first, with an
ellipsis appended iff the budget truncation occurred. -/
def claimed_one_line (text : String) (max_len : Nat) : String :=
  if text == "" then ""
  else
    match ([subIdx? text ". ", subIdx? text "。", subIdx? text "\n"].filterMap id).min? with
    | some i =>
      if i ≤ max_len then pyTake text i
      else pyTake text max_len ++ "..."
    | none =>
      if max_len < text.length then pyTake text max_len ++ "..." else text

/-! ## Shared helpers for the claim statements -/

/-- The 80-character budget step of `_one_line_summary` applied to an
already separator-split text. -/
def budget80 (t : String) : String :=
  pyTake t 80 ++ (if 80 < t.length then "..." else "")

/-- The constructor key of each `template.outputs` entry of a skill
payload (each entry is a one-key dict: `itemCard` or `simpleText`). -/
def outputKeys (j : Json) : Option (List String) :=
  match (j.getD "template" (Json.obj [])).get? "outputs" with
  | some (Json.arr outs) => some (outs.map (fun o =>
      match o with
      | Json.obj [(k, _)] => k
      | _ => ""))
  | _ => none

/-- The `imageTitle.title` of each itemCard output, in order. -/
def cardTitles (j : Json) : Option (List String) :=
  match (j.getD "template" (Json.obj [])).get? "outputs" with
  | some (Json.arr outs) => some (outs.map (fun o =>
      match ((o.getD "itemCard" (Json.obj [])).getD "imageTitle" (Json.obj [])).get? "title" with
      | some (Json.str t) => t
      | _ => ""))
  | _ => none

/-! ## Concrete round-trip scenario (spec §8: instrument "005930") -/

/-- Mocked snapshot: price 70,000, one-year return +10%. -/
def roundTripSnapshot : Snapshot :=
  { ticker := "005930", name := "삼성전자", current_price := 70000
  , market_cap := some 400000000000000, market_cap_rank := some 1
  , ret_1m := some 5, ret_3m := some 7, ret_1y := some 10
  , high_52w := 80000, low_52w := 60000, from_high := some (-125 / 10 : PyFloat) }

/-- Mocked filing: net income 1,000, equity 5,000, EPS 100. -/
def roundTripDf : List LineItem :=
  [ ⟨"당기순이익", some 1000⟩
  , ⟨"자본총계", some 5000⟩
  , ⟨"기본주당순이익", some 100⟩ ]

/-- Mocked external world: all-absent primary metrics, DART available
and returning the mocked filing. -/
def roundTripExt : ExtWorld :=
  { snapshot := some roundTripSnapshot
  , prim_metrics := emptyMetrics
  , fdr_lookup := none
  , dartReady := true
  , load_result := some (DartFinancialLoader._dataframe_to_text roundTripDf "005930", roundTripDf)
  , generated_at := "2026-10-12 00:00:00" }

/-- The summary narrative `generate_raw_report` builds in the round-trip
scenario. -/
def roundTripSummary : String :=
  "삼성전자의 현재 주가는 70,000원입니다. 최근 1년 수익률은 +10.00% 수준입니다."

/-! ## Claim theorems -/

/-- Helper for C5: when every line item's amount is unparseable, the
extractor returns the 0 sentinel for every key list. -/
theorem extract_all_unparsed (df : List LineItem)
    (h : ∀ li ∈ df, li.thstrm_amount = none) :
    ∀ keys, MetricsCalculator._extract_value_by_keys df keys = 0 := by
  intro keys
  induction keys with
  | nil => rfl
  | cons key rest ih =>
    unfold MetricsCalculator._extract_value_by_keys
    cases hh : (df.filter fun li => MetricsCalculator.reMatches key li.account_nm).head? with
    | none => exact ih
    | some li =>
      have hmem : li ∈ df :=
        List.mem_of_mem_filter (List.mem_of_mem_head? (Option.mem_def.mpr hh))
      simp only [h li hmem]
      exact ih

/-- C3: `MetricsCalculator.calculate_from_dataframe` returns the
no-metrics result `none` whenever the resolved `eps`, `net_income` or
`equity` equals the 0 sentinel (which is also what a failed lookup
resolves to); a successful result requires a non-zero resolved EPS (so
EPS = 0 never yields a PER), and the empty filing always fails.  The
result type never holds a partially populated metrics set: every
success carries all five fields, `pbr` being the only optional one. -/
theorem C3_zero_resolution_yields_no_metrics (df : List LineItem) (price : PyFloat) :
    ((MetricsCalculator._extract_value_by_keys df MetricsCalculator.EPS_KEYS = 0 ∨
      MetricsCalculator._extract_value_by_keys df MetricsCalculator.NET_INCOME_KEYS = 0 ∨
      MetricsCalculator._extract_value_by_keys df MetricsCalculator.EQUITY_KEYS = 0) →
      MetricsCalculator.calculate_from_dataframe df price = none) ∧
    (∀ m, MetricsCalculator.calculate_from_dataframe df price = some m →
      MetricsCalculator._extract_value_by_keys df MetricsCalculator.EPS_KEYS ≠ 0) ∧
    MetricsCalculator.calculate_from_dataframe [] price = none := by
  refine ⟨?_, ?_, rfl⟩
  · intro h
    unfold MetricsCalculator.calculate_from_dataframe
    rw [if_pos]
    exact Or.elim h Or.inl (fun h' => Or.inr (Or.elim h' Or.inl Or.inr))
  · intro m hm heps
    have hnone : MetricsCalculator.calculate_from_dataframe df price = none := by
      unfold MetricsCalculator.calculate_from_dataframe
      rw [if_pos]
      exact Or.inl heps
    rw [hnone] at hm
    exact Option.noConfusion hm

/-- C3 witness: a filing whose EPS line is present but zero yields no
metrics. -/
theorem C3_zero_resolution_yields_no_metrics_witness :
    MetricsCalculator.calculate_from_dataframe
      [⟨"당기순이익", some 1000⟩, ⟨"자본총계", some 5000⟩, ⟨"기본주당순이익", some 0⟩]
      70000 = none :=
  (C3_zero_resolution_yields_no_metrics
      [⟨"당기순이익", some 1000⟩, ⟨"자본총계", some 5000⟩, ⟨"기본주당순이익", some 0⟩]
      70000).1 (Or.inl (by decide))

/-- C5 counterexample: (i) when the first synonym's first matched
amount fails to parse, the extractor does not return the claimed 0
sentinel but falls through to the next synonym (keys `["A", "B"]`,
items `[("A1", unparseable), ("B1", 5)]` give 5, not 0); (ii) matching
is regex-based, not literal-substring: the parenthesised synonym
`"당기순이익(손실)"` does not match its own literal label, although the
label contains it as a substring (the claimed semantics returns 7
there, the code returns 0). -/
theorem C5_counterexample_fallthrough_and_regex :
    MetricsCalculator._extract_value_by_keys
      [⟨"A1", none⟩, ⟨"B1", some 5⟩] ["A", "B"] = 5 ∧
    claimed_extract_value [⟨"A1", none⟩, ⟨"B1", some 5⟩] ["A", "B"] = 0 ∧
    MetricsCalculator._extract_value_by_keys
      [⟨"당기순이익(손실)", some 7⟩] ["당기순이익(손실)"] = 0 ∧
    claimed_extract_value [⟨"당기순이익(손실)", some 7⟩] ["당기순이익(손실)"] = 7 ∧
    (5 : PyFloat) ≠ 0 ∧ (7 : PyFloat) ≠ 0 := by
  refine ⟨by decide, by decide, by decide, by decide, by decide, by decide⟩

/-- C5 (amended): the extractor tries the synonyms in list order; a
synonym is matched against labels as a regular expression (for this
module's synonyms that is containment of the synonym with its
parentheses removed); for the first matching synonym only the first
matching line item (in collection order) is consulted — its value is
returned if it parses, and otherwise the extractor falls through to the
next synonym; 0 is returned only when no synonym yields a parseable
first match (in particular when every amount is unparseable, or when
the key list is exhausted).  The claim's `["A", "AB"]`/`"AB Corp"`
example still resolves to 10 via substring containment. -/
theorem C5_extractor_first_parsed_match (df : List LineItem) (key : String)
    (rest : List String) :
    MetricsCalculator._extract_value_by_keys df [] = 0 ∧
    ((df.filter (fun li => MetricsCalculator.reMatches key li.account_nm)).head? = none →
      MetricsCalculator._extract_value_by_keys df (key :: rest) =
        MetricsCalculator._extract_value_by_keys df rest) ∧
    (∀ li v,
      (df.filter (fun li => MetricsCalculator.reMatches key li.account_nm)).head? = some li →
      li.thstrm_amount = some v →
      MetricsCalculator._extract_value_by_keys df (key :: rest) = v) ∧
    (∀ li,
      (df.filter (fun li => MetricsCalculator.reMatches key li.account_nm)).head? = some li →
      li.thstrm_amount = none →
      MetricsCalculator._extract_value_by_keys df (key :: rest) =
        MetricsCalculator._extract_value_by_keys df rest) ∧
    ((∀ li ∈ df, li.thstrm_amount = none) → ∀ keys,
      MetricsCalculator._extract_value_by_keys df keys = 0) ∧
    MetricsCalculator._extract_value_by_keys [⟨"AB Corp", some 10⟩] ["A", "AB"] = 10 := by
  refine ⟨rfl, ?_, ?_, ?_, extract_all_unparsed df, by decide⟩
  · intro h
    conv_lhs => rw [MetricsCalculator._extract_value_by_keys]
    rw [h]
  · intro li v hh hv
    conv_lhs => rw [MetricsCalculator._extract_value_by_keys]
    rw [hh]
    simp only [hv]
  · intro li hh hv
    conv_lhs => rw [MetricsCalculator._extract_value_by_keys]
    rw [hh]
    simp only [hv]

/-- C5 witness: a parseable first match through the first synonym. -/
theorem C5_extractor_first_parsed_match_witness :
    MetricsCalculator._extract_value_by_keys [⟨"X 매출", some 3⟩] ["매출", "기타"] = 3 :=
  (C5_extractor_first_parsed_match [⟨"X 매출", some 3⟩] "매출" ["기타"]).2.2.1
    ⟨"X 매출", some 3⟩ 3 (by decide) rfl

/-- C4: on every successful calculation the metrics are
`per = round2(price / eps)`, `roe = round2(net_income / equity * 100)`,
`eps`/`bps` truncated to integers, `shares = net_income / eps`,
`bps = equity / shares` when `shares > 0` else 0, and
`pbr = round2(price / bps)` when `bps > 0` else absent; and in the
round-trip scenario (price 70,000, filing net income 1,000, equity
5,000, EPS 100) the result is PER 700.0, PBR 140.0, ROE 20.0, EPS 100,
BPS 500, rendered in the valuation card as `"700.0배"`, `"20.0%"`,
`"EPS 100 / BPS 500"`. -/
theorem C4_valuation_formulas_and_round_trip (df : List LineItem)
    (price ni ev ep : PyFloat) (m : MetricsCalculator.CalcMetrics)
    (hni : MetricsCalculator._extract_value_by_keys df MetricsCalculator.NET_INCOME_KEYS = ni)
    (hev : MetricsCalculator._extract_value_by_keys df MetricsCalculator.EQUITY_KEYS = ev)
    (hep : MetricsCalculator._extract_value_by_keys df MetricsCalculator.EPS_KEYS = ep)
    (h : MetricsCalculator.calculate_from_dataframe df price = some m) :
    (m.per = pyRound2 (price / ep) ∧
     m.roe = pyRound2 (ni / ev * 100) ∧
     m.eps = pyTrunc ep ∧
     m.bps = pyTrunc (if ni / ep > 0 then ev / (ni / ep) else 0) ∧
     m.pbr = (if (if ni / ep > 0 then ev / (ni / ep) else 0) > 0
              then some (pyRound2 (price / (if ni / ep > 0 then ev / (ni / ep) else 0)))
              else none)) ∧
    (MetricsCalculator.calculate_from_dataframe roundTripDf 70000 =
      some { per := 700, pbr := some 140, roe := 20, eps := 100, bps := 500 }) ∧
    ((ReportFormatter._build_valuation_card
        (generate_raw_report "005930" roundTripExt)).get? "itemList" =
      some (Json.arr
        [ ReportFormatter.item "PER" "700.0배"
        , ReportFormatter.item "PBR" "140.0배"
        , ReportFormatter.item "ROE" "20.0%"
        , ReportFormatter.item "EPS/BPS" "EPS 100 / BPS 500"
        , ReportFormatter.item "평가 요약" "적정·저평가·고평가 여부는 리포트 본문 참조" ])) := by
  subst hni hev hep
  refine ⟨?_, by decide, rfl⟩
  simp only [MetricsCalculator.calculate_from_dataframe] at h
  by_cases hc :
      (MetricsCalculator._extract_value_by_keys df MetricsCalculator.EPS_KEYS = 0 ∨
       MetricsCalculator._extract_value_by_keys df MetricsCalculator.NET_INCOME_KEYS = 0 ∨
       MetricsCalculator._extract_value_by_keys df MetricsCalculator.EQUITY_KEYS = 0)
  · rw [if_pos hc] at h
    exact Option.noConfusion h
  · rw [if_neg hc] at h
    injection h with h
    subst h
    exact ⟨rfl, rfl, rfl, rfl, rfl⟩

/-- C4 witness: the round-trip PER equals the rounded price/EPS ratio. -/
theorem C4_valuation_formulas_and_round_trip_witness :
    ({ per := 700, pbr := some 140, roe := 20, eps := 100, bps := 500 } :
      MetricsCalculator.CalcMetrics).per = pyRound2 ((70000 : PyFloat) / 100) :=
  ((C4_valuation_formulas_and_round_trip roundTripDf 70000 1000 5000 100
      { per := 700, pbr := some 140, roe := 20, eps := 100, bps := 500 }
      (by decide) (by decide) (by decide) (by decide)).1).1

/-- C2: the metrics resolver adopts the whole primary set unchanged —
for every loader outcome — as soon as any of the five primary fields is
present, and also whenever the DART capability or a truthy current
price is missing; the filing fallback runs only when all five primary
fields are absent and both preconditions hold, and then it replaces the
metrics with the whole calculated set. -/
theorem C2_primary_any_value_blocks_fallback (dartReady : Bool)
    (cp : Option PyFloat) (m : StockMetrics) :
    (hasAnyValue m = true →
      ∀ load_result, _enhance_metrics_with_dart_if_needed dartReady cp load_result m =
        (m, none)) ∧
    ((dartReady = false ∨ priceTruthy cp = false) →
      ∀ load_result, _enhance_metrics_with_dart_if_needed dartReady cp load_result m =
        (m, none)) ∧
    (hasAnyValue m = false → dartReady = true → priceTruthy cp = true →
      ∀ text df c, df ≠ [] →
        MetricsCalculator.calculate_from_dataframe df (cp.getD 0) = some c →
        _enhance_metrics_with_dart_if_needed dartReady cp (some (text, df)) m =
          (applyCalculated m c, some text)) := by
  refine ⟨?_, ?_, ?_⟩
  · intro hA load_result
    cases hdp : (dartReady && priceTruthy cp) <;>
      simp [_enhance_metrics_with_dart_if_needed, hdp, hA]
  · intro h load_result
    rcases h with h | h <;>
      simp [_enhance_metrics_with_dart_if_needed, h]
  · intro hA hd hp text df c hdf hc
    cases df with
    | nil => exact absurd rfl hdf
    | cons a l =>
      simp [_enhance_metrics_with_dart_if_needed, hd, hp, hA, hc]

/-- C2 witness: a primary set with only PER present is adopted as-is
even though a filing that would produce full metrics is available. -/
theorem C2_primary_any_value_blocks_fallback_witness :
    _enhance_metrics_with_dart_if_needed true (some 70000)
      (some ("filing", roundTripDf))
      { per := some (Json.float 12), pbr := none, roe := none, eps := none, bps := none } =
    ({ per := some (Json.float 12), pbr := none, roe := none, eps := none, bps := none },
      none) :=
  (C2_primary_any_value_blocks_fallback true (some 70000)
      { per := some (Json.float 12), pbr := none, roe := none, eps := none, bps := none }).1
    rfl (some ("filing", roundTripDf))

/-- C7: a failed fallback never changes the metrics and never raises
(the embedding is a total function): `load_financials` returns the
`(None, None)` outcome when no corporate code resolves or when all
three fiscal years fail or come back empty, and the resolver returns
the original metrics set unchanged when the loader fails, when the
filing is empty, and (up to the accompanying narrative text) when the
calculator produces no metrics. -/
theorem C7_fallback_failure_preserves_metrics
    (gf : Nat → Option (List LineItem)) (year : Nat) (ticker : String)
    (dartReady : Bool) (cp : Option PyFloat) (m : StockMetrics) :
    (DartFinancialLoader.load_financials none gf year ticker = none) ∧
    ((∀ y ∈ [year, year - 1, year - 2], gf y = none ∨ gf y = some []) →
      ∀ corp, DartFinancialLoader.load_financials (some corp) gf year ticker = none) ∧
    (_enhance_metrics_with_dart_if_needed dartReady cp none m = (m, none)) ∧
    (∀ text, _enhance_metrics_with_dart_if_needed dartReady cp (some (text, [])) m =
      (m, none)) ∧
    (∀ text df,
      MetricsCalculator.calculate_from_dataframe df (cp.getD 0) = none →
      (_enhance_metrics_with_dart_if_needed dartReady cp (some (text, df)) m).1 = m) := by
  refine ⟨rfl, ?_, ?_, ?_, ?_⟩
  · intro h corp
    have h1 := h year (by simp)
    have h2 := h (year - 1) (by simp)
    have h3 := h (year - 2) (by simp)
    unfold DartFinancialLoader.load_financials
    rcases h1 with h1 | h1 <;> rcases h2 with h2 | h2 <;> rcases h3 with h3 | h3 <;>
      simp [List.findSome?, h1, h2, h3]
  · cases hdp : (dartReady && priceTruthy cp) <;>
      cases hA : hasAnyValue m <;>
        simp [_enhance_metrics_with_dart_if_needed, hdp, hA]
  · intro text
    cases hdp : (dartReady && priceTruthy cp) <;>
      cases hA : hasAnyValue m <;>
        simp [_enhance_metrics_with_dart_if_needed, hdp, hA]
  · intro text df hc
    cases hdp : (dartReady && priceTruthy cp) <;>
      cases hA : hasAnyValue m <;>
        cases df <;>
          simp [_enhance_metrics_with_dart_if_needed, hdp, hA, hc]

/-- C7 witness: a filing whose EPS resolves to zero leaves the original
all-absent metrics untouched. -/
theorem C7_fallback_failure_preserves_metrics_witness :
    (_enhance_metrics_with_dart_if_needed true (some 70000)
      (some ("filing", [⟨"기본주당순이익", some 0⟩])) emptyMetrics).1 = emptyMetrics :=
  (C7_fallback_failure_preserves_metrics (fun _ => none) 2026 "005930" true
      (some 70000) emptyMetrics).2.2.2.2 "filing" [⟨"기본주당순이익", some 0⟩] (by decide)

/-- C8 counterexample: the separators are tried in the fixed priority
`". "`, `"。"`, `"\n"`, not by position in the text: in `"a\nb. c"` the
newline comes first, so the claimed truncation gives `"a"`, but the
code splits at `". "` and yields `"a\nb"`. -/
theorem C8_counterexample_separator_priority :
    ReportFormatter._one_line_summary "a\nb. c" 80 = "a\nb" ∧
    claimed_one_line "a\nb. c" 80 = "a" ∧
    ("a\nb" : String) ≠ "a" :=
  ⟨by decide, by decide, by decide⟩

/-- C8 (amended): the one-line summary splits the text at the first
occurrence of the highest-priority separator present — `". "` first,
then `"。"`, then `"\n"` (priority order, not text order) — and then
applies the fixed 80-character budget, appending `"..."` iff the kept
part exceeds the budget; in particular a 120-character text with no
separator yields its first 80 characters plus the ellipsis, and a text
with no separator within the budget is returned unchanged. -/
theorem C8_one_line_priority_truncation (text : String) :
    (hasSub text ". " = true →
      ReportFormatter._one_line_summary text 80 = budget80 (firstPart text ". ")) ∧
    (hasSub text ". " = false → hasSub text "。" = true →
      ReportFormatter._one_line_summary text 80 = budget80 (firstPart text "。")) ∧
    (hasSub text ". " = false → hasSub text "。" = false → hasSub text "\n" = true →
      ReportFormatter._one_line_summary text 80 = budget80 (firstPart text "\n")) ∧
    (hasSub text ". " = false → hasSub text "。" = false → hasSub text "\n" = false →
      text.length = 120 →
      ReportFormatter._one_line_summary text 80 = pyTake text 80 ++ "...") ∧
    (hasSub text ". " = false → hasSub text "。" = false → hasSub text "\n" = false →
      text.length ≤ 80 →
      ReportFormatter._one_line_summary text 80 = text) := by
  refine ⟨?_, ?_, ?_, ?_, ?_⟩
  · intro h1
    by_cases he : text = ""
    · subst he; exact absurd h1 (by decide)
    · simp [ReportFormatter._one_line_summary, he, h1, budget80]
  · intro h1 h2
    by_cases he : text = ""
    · subst he; exact absurd h2 (by decide)
    · simp [ReportFormatter._one_line_summary, he, h1, h2, budget80]
  · intro h1 h2 h3
    by_cases he : text = ""
    · subst he; exact absurd h3 (by decide)
    · simp [ReportFormatter._one_line_summary, he, h1, h2, h3, budget80]
  · intro h1 h2 h3 hlen
    by_cases he : text = ""
    · rw [he] at hlen; exact absurd hlen (by decide)
    · simp only [ReportFormatter._one_line_summary, he, h1, h2, h3]
      simp only [beq_iff_eq, he, if_false, if_neg, Bool.false_eq_true]
      rw [if_pos (by omega)]
  · intro h1 h2 h3 hlen
    by_cases he : text = ""
    · subst he; rfl
    · simp only [ReportFormatter._one_line_summary, he, h1, h2, h3]
      simp only [beq_iff_eq, he, if_false, Bool.false_eq_true]
      rw [if_neg (by omega)]
      show pyTake text 80 ++ "" = text
      have htake : text.toList.take 80 = text.toList := List.take_of_length_le hlen
      rw [show text.toList = text.data from rfl] at htake
      simp only [pyTake, String.mk, show text.toList = text.data from rfl, htake]
      cases text with
      | mk d => simp [String.append]

/-- C8 witness: a 120-character separator-free text truncates to its
first 80 characters plus the ellipsis. -/
theorem C8_one_line_priority_truncation_witness :
    ReportFormatter._one_line_summary (String.mk (List.replicate 120 'a')) 80 =
      pyTake (String.mk (List.replicate 120 'a')) 80 ++ "..." :=
  (C8_one_line_priority_truncation (String.mk (List.replicate 120 'a'))).2.2.2.1
    (by decide) (by decide) (by decide) (by decide)

/-- C9: the opinion label is BUY when a buy keyword (Korean `매수` in
the text or `buy` in its lowercasing) occurs anywhere, else HOLD on a
hold keyword, else SELL on a sell keyword — priority BUY > HOLD > SELL
independent of position; the upside is `(target − current) / current ×
100` (one decimal, `+`-signed when non-negative) whenever the current
price is positive and the target string parses after stripping
separators and the currency suffix; the extracted target price is the
first number-like token (`[\\d,]+` run) in the text, rendered with
comma grouping and the currency suffix, whenever it parses; and the
claim's concrete scenario holds: text `"목표가 60,000원"` extracts target `60,000원` and with
current price 50,000 yields `"+20.0%"`. -/
theorem C9_opinion_label_target_upside (text : String) (cp : Int)
    (ts : String) (n : Int) :
    ((hasSub text "매수" || hasSub (pyLower text) "buy") = true →
      (ReportFormatter._extract_opinion_and_target text).1 = some "매수(BUY)") ∧
    ((hasSub text "매수" || hasSub (pyLower text) "buy") = false →
     (hasSub text "보유" || hasSub (pyLower text) "hold") = true →
      (ReportFormatter._extract_opinion_and_target text).1 = some "보유(HOLD)") ∧
    ((hasSub text "매수" || hasSub (pyLower text) "buy") = false →
     (hasSub text "보유" || hasSub (pyLower text) "hold") = false →
     (hasSub text "매도" || hasSub (pyLower text) "sell") = true →
      (ReportFormatter._extract_opinion_and_target text).1 = some "매도(SELL)") ∧
    (0 < cp → (ts == "") = false →
      pyParseInt (ReportFormatter.stripPriceStr ts) = some n →
      ReportFormatter._calc_upside (some cp) (some ts) =
        (if (0 : PyFloat) ≤ (((n : Int) : PyFloat) - ((cp : Int) : PyFloat)) /
              ((cp : Int) : PyFloat) * 100 then "+" else "") ++
          fmtFixed 1 ((((n : Int) : PyFloat) - ((cp : Int) : PyFloat)) /
              ((cp : Int) : PyFloat) * 100) ++ "%") ∧
    (∀ tok toks, numTokens text = tok :: toks →
      (tok.toList.filter (fun c => c != ',')).isEmpty = false →
      (ReportFormatter._extract_opinion_and_target text).2 =
        some (groupInt (digitsToNat (tok.toList.filter (fun c => c != ',')) : Int) ++ "원")) ∧
    (ReportFormatter._extract_opinion_and_target "목표가 60,000원" =
      (none, some "60,000원")) ∧
    ReportFormatter._calc_upside (some 50000) (some "60,000원") = "+20.0%" := by
  refine ⟨?_, ?_, ?_, ?_, ?_, by decide, by decide⟩
  · intro h1
    by_cases he : text = ""
    · subst he; exact absurd h1 (by decide)
    · simp [ReportFormatter._extract_opinion_and_target, he, h1]
  · intro h1 h2
    by_cases he : text = ""
    · subst he; exact absurd h2 (by decide)
    · simp [ReportFormatter._extract_opinion_and_target, he, h1, h2]
  · intro h1 h2 h3
    by_cases he : text = ""
    · subst he; exact absurd h3 (by decide)
    · simp [ReportFormatter._extract_opinion_and_target, he, h1, h2, h3]
  · intro hcp hts hparse
    have h0 : (cp == 0) = false := by
      rw [beq_eq_false_iff_ne]
      omega
    simp only [ReportFormatter._calc_upside, h0, hts, Bool.or_false, hparse]
    rw [if_neg (by simp), if_neg (by omega)]
  · intro tok toks htok hd
    by_cases he : text = ""
    · rw [he, show numTokens "" = [] from rfl] at htok
      exact List.noConfusion htok
    · simp [ReportFormatter._extract_opinion_and_target, he, htok]
      simpa using hd

/-- C9 witness: a text containing the buy keyword is labelled BUY. -/
theorem C9_opinion_label_target_upside_witness :
    (ReportFormatter._extract_opinion_and_target "적극 매수 추천").1 = some "매수(BUY)" :=
  (C9_opinion_label_target_upside "적극 매수 추천" 1 "" 0).1 (by decide)

/-- C10: `_calc_upside` answers `"N/A"` whenever the current price is
missing, zero or negative, whenever the target string is missing, and
whenever it fails to parse as an integer after stripping `","` and
`"원"`; a non-`"N/A"` answer forces a strictly positive current price,
so the division is only ever evaluated with a positive denominator. -/
theorem C10_upside_guard_no_division (cp : Int) (ts : String) (o : Option String) :
    ReportFormatter._calc_upside none o = "N/A" ∧
    ReportFormatter._calc_upside (some cp) none = "N/A" ∧
    (cp ≤ 0 → ReportFormatter._calc_upside (some cp) (some ts) = "N/A") ∧
    (pyParseInt (ReportFormatter.stripPriceStr ts) = none →
      ReportFormatter._calc_upside (some cp) (some ts) = "N/A") ∧
    (ReportFormatter._calc_upside (some cp) (some ts) ≠ "N/A" → 0 < cp) := by
  have key : ∀ c : Int, c ≤ 0 → ∀ t : String,
      ReportFormatter._calc_upside (some c) (some t) = "N/A" := by
    intro c hc t
    by_cases hz : c = 0
    · subst hz
      simp [ReportFormatter._calc_upside]
    · have h0 : (c == 0) = false := by
        rw [beq_eq_false_iff_ne]
        omega
      by_cases ht : t = ""
      · subst ht
        simp [ReportFormatter._calc_upside, h0]
      · have hts : (t == "") = false := by
          rw [beq_eq_false_iff_ne]
          exact ht
        simp only [ReportFormatter._calc_upside, h0, hts, Bool.or_false]
        rw [if_neg (by simp)]
        cases hp : pyParseInt (ReportFormatter.stripPriceStr t) with
        | none => rfl
        | some tn =>
          simp [hc]
  refine ⟨rfl, rfl, fun h => key cp h ts, ?_, ?_⟩
  · intro hp
    by_cases hz : cp = 0
    · subst hz
      simp [ReportFormatter._calc_upside]
    · have h0 : (cp == 0) = false := by
        rw [beq_eq_false_iff_ne]
        exact hz
      by_cases ht : ts = ""
      · subst ht
        simp [ReportFormatter._calc_upside, h0]
      · have hts : (ts == "") = false := by
          rw [beq_eq_false_iff_ne]
          exact ht
        simp [ReportFormatter._calc_upside, h0, hts, hp]
  · intro hne
    by_contra hlt
    exact hne (key cp (by omega) ts)

/-- C10 witness: a negative current price yields `"N/A"`. -/
theorem C10_upside_guard_no_division_witness :
    ReportFormatter._calc_upside (some (-100)) (some "60,000원") = "N/A" :=
  (C10_upside_guard_no_division (-100) "60,000원" none).2.2.1 (by decide)

/-- Helper: the simpleText skill payload always carries the `version`
and `template` keys. -/
theorem simple_text_has_version_template (s : String) :
    ((_simple_text_skill s).get? "version").isSome = true ∧
    ((_simple_text_skill s).get? "template").isSome = true :=
  ⟨rfl, rfl⟩

/-- Helper: `_ensure_kakao_format` output always carries the `version`
and `template` keys. -/
theorem ensure_has_version_template (resp : Json) :
    (((_ensure_kakao_format resp).get? "version").isSome = true) ∧
    (((_ensure_kakao_format resp).get? "template").isSome = true) := by
  unfold _ensure_kakao_format
  cases hk : isKakaoDict resp with
  | true =>
    simp only [hk, if_true]
    unfold isKakaoDict at hk
    cases resp <;> simp_all
  | false =>
    simp only [hk, Bool.false_eq_true, if_false]
    cases resp <;> exact ⟨rfl, rfl⟩

/-- Helper: the assembled report dict is not kakao-shaped (its top-level
keys are `ticker`, `name`, `generated_at`, `report`, `raw_data`). -/
theorem mkReportData_not_kakao (a b c : String) (snap : Snapshot)
    (m : StockMetrics) (ft : Option String) :
    isKakaoDict (mkReportData a b c snap m ft) = false := rfl

/-- Helper: the assembled report dict is truthy (non-empty dict). -/
theorem mkReportData_truthy (a b c : String) (snap : Snapshot)
    (m : StockMetrics) (ft : Option String) :
    jsonTruthy (mkReportData a b c snap m ft) = true := rfl

/-- Helper: the assembled report dict always carries a string summary
section, so the AttributeError fallback never crashes on it. -/
theorem mkReportData_summary_isSome (a b c : String) (snap : Snapshot)
    (m : StockMetrics) (ft : Option String) :
    (getSummaryField (mkReportData a b c snap m ft)).isSome = true := rfl

/-- Helper: every raw report the raw service can produce has a defined
summary lookup. -/
theorem raw_report_summary_defined (t : String) (ext : ExtWorld) :
    (getSummaryField (generate_raw_report t ext)).isSome = true := by
  unfold generate_raw_report
  cases he : (pyStrip t == "") with
  | true => simp only [he, if_true]; rfl
  | false =>
    simp only [he, Bool.false_eq_true, if_false]
    cases ext.snapshot with
    | none => rfl
    | some snap => exact mkReportData_summary_isSome _ _ _ _ _ _

/-- Helper: `generate_report` on a produced raw report with a defined
summary lookup returns a well-formed versioned payload. -/
theorem generate_report_produced_ok (t : String) (raw : Json)
    (h : (getSummaryField raw).isSome = true) :
    ∃ j, generate_report t (.produced raw) = Except.ok j ∧
      (j.get? "version").isSome = true ∧ (j.get? "template").isSome = true := by
  unfold generate_report
  cases he : (pyStrip t == "") with
  | true =>
    simp only [he, if_true]
    exact ⟨_, rfl, ensure_has_version_template _⟩
  | false =>
    simp only [he, Bool.false_eq_true, if_false]
    cases hk : isKakaoDict raw with
    | true =>
      simp only [hk, if_true]
      exact ⟨_, rfl, ensure_has_version_template _⟩
    | false =>
      simp only [hk, Bool.not_false, Bool.false_eq_true, if_false]
      cases ht : jsonTruthy raw with
      | false =>
        simp only [ht, Bool.not_false, if_true]
        exact ⟨_, rfl, ensure_has_version_template _⟩
      | true =>
        simp only [ht, Bool.not_true, Bool.false_eq_true, if_false]
        obtain ⟨s0, hs0⟩ := Option.isSome_iff_exists.mp h
        rw [hs0]
        exact ⟨_, rfl, ensure_has_version_template _⟩

/-- C6: for every ticker string and every external-world behaviour —
including the empty ticker, unknown instruments (no snapshot), and the
raw-report stage raising — the exposed `generate_report` returns a
payload (never an uncaught exception) that contains both the `version`
and `template` keys; and the response to an internal exception is a
fixed apology payload that does not depend on the exception message, so
no internal error detail is surfaced. -/
theorem C6_output_always_version_template (ticker : String) (ext : ExtWorld)
    (e1 e2 : String) :
    (∃ j, generate_report ticker (.produced (generate_raw_report ticker ext)) =
        Except.ok j ∧
        (j.get? "version").isSome = true ∧ (j.get? "template").isSome = true) ∧
    generate_report ticker (.raises e1) = generate_report ticker (.raises e2) ∧
    (∃ j, generate_report ticker (.raises e1) = Except.ok j ∧
        (j.get? "version").isSome = true ∧ (j.get? "template").isSome = true) := by
  refine ⟨generate_report_produced_ok ticker (generate_raw_report ticker ext)
      (raw_report_summary_defined ticker ext), rfl, ?_⟩
  unfold generate_report
  cases he : (pyStrip ticker == "") with
  | true =>
    simp only [he, if_true]
    exact ⟨_, rfl, ensure_has_version_template _⟩
  | false =>
    simp only [he, Bool.false_eq_true, if_false]
    exact ⟨_, rfl, ensure_has_version_template _⟩

/-- C1 (code bug): for a ticker whose snapshot and raw report are
assembled (the round-trip instrument "005930"), the exposed
`generate_report` does not return the five-card Success response:
`ReportFormatter.build_from_raw_report` is not defined anywhere in
`report_formatter.py`, so the success path always raises
`AttributeError` internally and its handler returns a single simpleText
output holding only the summary narrative.  The orphaned
`ReportFormatter.build_success_response` — which `generate_report`
never calls — is what produces the claimed payload: exactly five
`itemCard` outputs titled summary, price-trend, financial-statement,
valuation and opinion, in that order, plus the shared quick replies. -/
theorem C1_success_path_returns_simple_text :
    generate_report "005930" (.produced (generate_raw_report "005930" roundTripExt)) =
      Except.ok (_simple_text_skill roundTripSummary) ∧
    outputKeys (_simple_text_skill roundTripSummary) = some ["simpleText"] ∧
    outputKeys (ReportFormatter.build_success_response
        (generate_raw_report "005930" roundTripExt)) =
      some ["itemCard", "itemCard", "itemCard", "itemCard", "itemCard"] ∧
    cardTitles (ReportFormatter.build_success_response
        (generate_raw_report "005930" roundTripExt)) =
      some ["투자 요약", "주가 동향 분석", "재무제표", "밸류에이션", "투자의견"] ∧
    ((ReportFormatter.build_success_response
        (generate_raw_report "005930" roundTripExt)).getD
          "template" (Json.obj [])).get? "quickReplies" =
      some ReportFormatter._build_common_quick_replies :=
  ⟨rfl, rfl, rfl, rfl, rfl⟩
